import Mathlib

/-!
Verification of the dugong T5 training script (src/dugong/t5.py).

The script is orchestration glue: a dataset wrapper over batch encodings,
a `setup` routine composing preprocessing, tokenizer, evaluator, collator
and model, and a `train_torch` epoch loop rendering metrics.  We embed the
data model and the control structure shallowly: lists for the parallel
encoding arrays, `Except` for fallible external calls, and an event trace
for the epoch loop.
-/

namespace Dugong

/-- The global metric identifier loaded at module import
(`METRIC = evaluate.load("sacrebleu")`). -/
def METRIC : String := "sacrebleu"

/-- A batch-encoded collection: three parallel arrays of per-example
integer sequences, as produced by the preprocessor
(`encodings.input_ids`, `encodings.attention_mask`, `encodings.labels`). -/
structure BatchEncoding where
  input_ids : List (List Int)
  attention_mask : List (List Int)
  labels : List (List Int)
deriving DecidableEq, Repr

/-- One encoded example, the record returned by
`BatchEncodingDataset.__getitem__`: the dict with keys
`input_ids`, `attention_mask`, `labels` (tensor construction from a list
preserves the values). -/
structure EncodedExample where
  input_ids : List Int
  attention_mask : List Int
  labels : List Int
deriving DecidableEq, Repr

/-- The dataset wrapper `BatchEncodingDataset`: its `__init__` stores the
encoding collection in the field `self.encodings` and nothing else. -/
structure BatchEncodingDataset where
  encodings : BatchEncoding
deriving DecidableEq, Repr

/-- `BatchEncodingDataset.__init__(self, encodings)`: the constructor body is
the single assignment `self.encodings = encodings`; it performs no
validation, so as an `Except` computation it always succeeds. -/
def BatchEncodingDataset.init (encodings : BatchEncoding) :
    Except String BatchEncodingDataset :=
  Except.ok ⟨encodings⟩

/-- `BatchEncodingDataset.__getitem__(self, idx)`: reads
`self.encodings.input_ids[idx]`, `self.encodings.attention_mask[idx]`,
`self.encodings.labels[idx]` and returns the three values as one record.
A Python `IndexError` on any of the three reads is `none`. -/
def BatchEncodingDataset.getitem (d : BatchEncodingDataset) (idx : Nat) :
    Option EncodedExample :=
  match d.encodings.input_ids[idx]?, d.encodings.attention_mask[idx]?,
      d.encodings.labels[idx]? with
  | some i, some a, some l => some ⟨i, a, l⟩
  | _, _, _ => none

/-- `BatchEncodingDataset.__len__(self)`: `len(self.encodings.input_ids)`. -/
def BatchEncodingDataset.len (d : BatchEncodingDataset) : Nat :=
  d.encodings.input_ids.length

/-- State-passing form of `__getitem__`: the method body contains only
reads of `self` (no assignment to `self` or its fields), so the post state
is the pre state. -/
def BatchEncodingDataset.getitem_st (d : BatchEncodingDataset) (idx : Nat) :
    Option EncodedExample × BatchEncodingDataset :=
  (d.getitem idx, d)

/-- State-passing form of `__len__`: the method body only reads `self`. -/
def BatchEncodingDataset.len_st (d : BatchEncodingDataset) :
    Nat × BatchEncodingDataset :=
  (d.len, d)

/-- The tokenizer handle returned by the preprocessor; `setup` only reads
its `pad_token_id`. -/
structure T5Tokenizer where
  pad_token_id : Int
deriving DecidableEq, Repr

/-- The evaluator built by `setup`: `Evaluate(tokenizer, METRIC)`. -/
structure Evaluate where
  tokenizer : T5Tokenizer
  metric : String
deriving DecidableEq, Repr

/-- The data collator built by `setup` (lines 86-91):
`DataCollatorForSeq2Seq(tokenizer=tokenizer, model=checkpoint, padding=True,
label_pad_token_id=tokenizer.pad_token_id)`.  Note the `model` argument is
the checkpoint string. -/
structure DataCollatorForSeq2Seq where
  tokenizer : T5Tokenizer
  model : String
  padding : Bool
  label_pad_token_id : Int
deriving DecidableEq, Repr

/-- The generation model loaded from a checkpoint identifier. -/
structure T5ForConditionalGeneration where
  checkpoint : String
deriving DecidableEq, Repr

/-- The external collaborators `setup` calls, each modelled as a fallible
operation: `preprocessor.preprocess(train_path, test_path)` (fails on a
missing or malformed data file), `preprocessor.get_tokenizer()`,
`preprocessor.get_checkpoint()`, and
`T5ForConditionalGeneration.from_pretrained(checkpoint)` (fails on an
unknown checkpoint identifier). -/
structure SetupEnv where
  preprocess : Except String (BatchEncoding × BatchEncoding)
  get_tokenizer : Except String T5Tokenizer
  get_checkpoint : Except String String
  from_pretrained : String → Except String T5ForConditionalGeneration

/-- The value `setup` actually returns (lines 97-105), as a nested tuple in
source order: `(train_dataset, test_dataset, tokenizer, checkpoint,
evaluate, data_collator, model)`. -/
abbrev SetupResult :=
  BatchEncodingDataset × BatchEncodingDataset × T5Tokenizer × String ×
    Evaluate × DataCollatorForSeq2Seq × T5ForConditionalGeneration

/-- `setup` (lines 63-105): preprocess the two files, fetch tokenizer and
checkpoint, build the evaluator and data collator, load the model, wrap the
two encodings into dataset wrappers, and return the 7-tuple.  An uncaught
exception at any step is an `Except.error` that propagates out. -/
def setup (env : SetupEnv) : Except String SetupResult :=
  match env.preprocess with
  | .error msg => .error msg
  | .ok (train_e, test_e) =>
    match env.get_tokenizer with
    | .error msg => .error msg
    | .ok tokenizer =>
      match env.get_checkpoint with
      | .error msg => .error msg
      | .ok checkpoint =>
        let ev : Evaluate := ⟨tokenizer, METRIC⟩
        let data_collator : DataCollatorForSeq2Seq :=
          ⟨tokenizer, checkpoint, true, tokenizer.pad_token_id⟩
        match env.from_pretrained checkpoint with
        | .error msg => .error msg
        | .ok model =>
          let train_dataset : BatchEncodingDataset := ⟨train_e⟩
          let test_dataset : BatchEncodingDataset := ⟨test_e⟩
          .ok (train_dataset, test_dataset, tokenizer, checkpoint, ev,
            data_collator, model)

/-- Kinds of components in `setup`'s interface, used to compare the order of
the actual return tuple, the declared return type, and the unpacking in
`train_torch`. -/
inductive ComponentTag where
  | dataset
  | tokenizer
  | checkpoint
  | evaluator
  | collator
  | model
deriving DecidableEq, Repr

/-- Order of `setup`'s actual return tuple (lines 97-105): train dataset,
test dataset, tokenizer, checkpoint, evaluate, data collator, model. -/
def setupReturnOrder : List ComponentTag :=
  [.dataset, .dataset, .tokenizer, .checkpoint, .evaluator, .collator, .model]

/-- Order declared by `setup`'s return type (lines 69-77): Dataset, Dataset,
T5Tokenizer, Evaluate, str, DataCollatorForSeq2Seq,
T5ForConditionalGeneration. -/
def setupDeclaredOrder : List ComponentTag :=
  [.dataset, .dataset, .tokenizer, .evaluator, .checkpoint, .collator, .model]

/-- Order in which `train_torch` unpacks `setup`'s result (lines 116-124):
train_dataset, test_dataset, tokenizer, checkpoint, evaluate, data_collator,
model. -/
def trainTorchUnpackOrder : List ComponentTag :=
  [.dataset, .dataset, .tokenizer, .checkpoint, .evaluator, .collator, .model]

/-- Training hyperparameters (`Seq2SeqTrainingArguments`, lines 126-137);
decimal literals are represented exactly as rationals. -/
structure Seq2SeqTrainingArguments where
  output_dir : String
  evaluation_strategy : String
  learning_rate : Rat
  per_device_train_batch_size : Nat
  per_device_eval_batch_size : Nat
  weight_decay : Rat
  save_total_limit : Nat
  num_train_epochs : Nat
  predict_with_generate : Bool
  fp16 : Bool

/-- The concrete argument record built by `train_torch`. -/
def training_args : Seq2SeqTrainingArguments where
  output_dir := "dugong/models/"
  evaluation_strategy := "epoch"
  learning_rate := 2 / 100000
  per_device_train_batch_size := 4
  per_device_eval_batch_size := 4
  weight_decay := 1 / 100
  save_total_limit := 3
  num_train_epochs := 2
  predict_with_generate := true
  fp16 := false

/-- Observable steps of the `train_torch` epoch loop, in program order:
trainer construction, `trainer.train()`, `progress.update(task, advance=1)`,
`trainer.evaluate()`, rendering of the metrics table (its rows recorded as
name/rendered-value pairs), and the final success message. -/
inductive TrainEvent where
  | constructTrainer (epoch : Nat)
  | trainPass (epoch : Nat)
  | advanceProgress (epoch : Nat) (amount : Nat)
  | evalPass (epoch : Nat)
  | renderMetricsTable (epoch : Nat) (rows : List (String × String))
  | printSuccess (msg : String)
deriving DecidableEq, Repr

/-- The rows added to the metrics table for a metrics mapping `ms`:
`for metric_name, metric_value in metrics.items(): add_row(name, str(value))`.
`render` embeds Python `str` on the metric-value type. -/
def metricsRows {α : Type} (render : α → String) (ms : List (String × α)) :
    List (String × String) :=
  ms.map fun p => (p.1, render p.2)

/-- The events of one iteration of the `for epoch in range(...)` body, in
source order (lines 146-173): construct trainer, `trainer.train()`,
`progress.update(task, advance=1)`, `metrics = trainer.evaluate()`, then
build and print the metrics table.  `metricsOf e` is the metrics mapping the
trainer returns for epoch `e`. -/
def epochEvents {α : Type} (render : α → String)
    (metricsOf : Nat → List (String × α)) (epoch : Nat) : List TrainEvent :=
  [.constructTrainer epoch, .trainPass epoch, .advanceProgress epoch 1,
   .evalPass epoch, .renderMetricsTable epoch (metricsRows render (metricsOf epoch))]

/-- `for epoch in range(n)` over the loop body: the trace of the first `n`
iterations. -/
def runEpochs {α : Type} (render : α → String)
    (metricsOf : Nat → List (String × α)) : Nat → List TrainEvent
  | 0 => []
  | n + 1 => runEpochs render metricsOf n ++ epochEvents render metricsOf n

/-- The whole observable trace of `train_torch`'s loop when configured with
`n` epochs: the epoch iterations followed by the terminal success message.
`train_torch` itself returns `None`; its behaviour is this trace. -/
def train_torch_trace {α : Type} (render : α → String)
    (metricsOf : Nat → List (String × α)) (n : Nat) : List TrainEvent :=
  runEpochs render metricsOf n ++
    [.printSuccess "[green]Training complete![/green]"]

/-- The trace of `train_torch` as written, with its hardcoded
`num_train_epochs=2`. -/
def train_torch_events {α : Type} (render : α → String)
    (metricsOf : Nat → List (String × α)) : List TrainEvent :=
  train_torch_trace render metricsOf training_args.num_train_epochs

def TrainEvent.isConstruct : TrainEvent → Bool
  | .constructTrainer _ => true
  | _ => false

def TrainEvent.isTrain : TrainEvent → Bool
  | .trainPass _ => true
  | _ => false

def TrainEvent.isAdvance : TrainEvent → Bool
  | .advanceProgress _ _ => true
  | _ => false

def TrainEvent.isEval : TrainEvent → Bool
  | .evalPass _ => true
  | _ => false

def TrainEvent.isRender : TrainEvent → Bool
  | .renderMetricsTable _ _ => true
  | _ => false

/-- Arguments of a `train_torch` invocation. -/
structure TrainTorchArgs where
  train_path : String
  test_path : String
  source_lang : String
  target_lang : String
deriving DecidableEq, Repr

/-- The hardcoded invocation in the `__main__` block (line 179):
`train_torch(Path("dugong/t5_train.json"), Path("dugong/t5_test.json"),
"en", "fr")`. -/
def mainArgs : TrainTorchArgs :=
  ⟨"dugong/t5_train.json", "dugong/t5_test.json", "en", "fr"⟩

/-- The `__main__` block as a function of the command line: the script never
reads `sys.argv` and parses no flags, so every invocation produces the same
`train_torch` arguments. -/
def mainEntry (argv : List String) : TrainTorchArgs := mainArgs

/-- Characters of the final path component: scan the path, restarting the
accumulator at each '/' separator. -/
def fileNameChars : List Char → List Char → List Char
  | [], acc => acc.reverse
  | c :: cs, acc =>
    if c = '/' then fileNameChars cs []
    else fileNameChars cs (c :: acc)

/-- Final path component of a POSIX-style path string. -/
def fileName (p : String) : String := String.mk (fileNameChars p.data [])

/-- An environment in which loading the training data fails. -/
def envMissingFile : SetupEnv where
  preprocess := Except.error "train file not found"
  get_tokenizer := Except.ok ⟨0⟩
  get_checkpoint := Except.ok "t5-small"
  from_pretrained := fun cp => Except.ok ⟨cp⟩

/-- An environment in which every external call succeeds. -/
def envAllOk : SetupEnv where
  preprocess := Except.ok (⟨[[1]], [[1]], [[2]]⟩, ⟨[[3]], [[1]], [[4]]⟩)
  get_tokenizer := Except.ok ⟨0⟩
  get_checkpoint := Except.ok "t5-small"
  from_pretrained := fun cp => Except.ok ⟨cp⟩

/-- The tuple `setup` returns in the environment `envAllOk`. -/
def envAllOkResult : SetupResult :=
  (⟨⟨[[1]], [[1]], [[2]]⟩⟩, ⟨⟨[[3]], [[1]], [[4]]⟩⟩, ⟨0⟩, "t5-small",
    ⟨⟨0⟩, METRIC⟩, ⟨⟨0⟩, "t5-small", true, 0⟩, ⟨"t5-small"⟩)

end Dugong

namespace Dugong

/-- C1: for a dataset wrapper built from an encoding collection whose three
arrays all have length N, `length()` returns N, and for every index
i < N, `get(i)` returns exactly the i-th input ids, i-th attention mask and
i-th labels, unmodified. -/
theorem C1_dataset_len_get (e : BatchEncoding) (N : Nat)
    (hi : e.input_ids.length = N) (ha : e.attention_mask.length = N)
    (hl : e.labels.length = N) :
    (BatchEncodingDataset.mk e).len = N ∧
    ∀ i (hiN : i < N),
      (BatchEncodingDataset.mk e).getitem i =
        some ⟨e.input_ids.get ⟨i, by omega⟩,
              e.attention_mask.get ⟨i, by omega⟩,
              e.labels.get ⟨i, by omega⟩⟩ := by
  constructor
  · simpa [BatchEncodingDataset.len] using hi
  · intro i hiN
    have h1 : e.input_ids[i]? = some (e.input_ids.get ⟨i, by omega⟩) := by
      rw [List.getElem?_eq_getElem (by omega)]; rfl
    have h2 : e.attention_mask[i]? =
        some (e.attention_mask.get ⟨i, by omega⟩) := by
      rw [List.getElem?_eq_getElem (by omega)]; rfl
    have h3 : e.labels[i]? = some (e.labels.get ⟨i, by omega⟩) := by
      rw [List.getElem?_eq_getElem (by omega)]; rfl
    simp [BatchEncodingDataset.getitem, h1, h2, h3]

/-- C1 witness: concrete collection with N = 2, evaluated at index 1. -/
theorem C1_dataset_len_get_witness :
    (BatchEncodingDataset.mk ⟨[[1, 2], [3]], [[1, 1], [1]], [[7], [8, 9]]⟩).len = 2 ∧
    (BatchEncodingDataset.mk
        ⟨[[1, 2], [3]], [[1, 1], [1]], [[7], [8, 9]]⟩).getitem 1 =
      some ⟨[3], [1], [8, 9]⟩ := by
  have h := C1_dataset_len_get ⟨[[1, 2], [3]], [[1, 1], [1]], [[7], [8, 9]]⟩ 2
    (by decide) (by decide) (by decide)
  exact ⟨h.1, (h.2 1 (by decide)).trans (by decide)⟩

/-- C2 counterexample: an encoding collection whose arrays have lengths
2, 1, 2 is accepted by the constructor without any error — construction
does not fail on mismatched lengths. -/
theorem C2_counterexample_init_succeeds :
    BatchEncodingDataset.init ⟨[[1], [2]], [[1]], [[5], [6]]⟩ =
      Except.ok ⟨⟨[[1], [2]], [[1]], [[5], [6]]⟩⟩ := by
  rfl

/-- C2 amended: constructing the dataset wrapper never fails, whatever the
array lengths; no length validation happens at construction, and the wrapper
does not truncate to the shorter arrays — its length is always the length of
`input_ids`, a mismatch surfacing only at access time. -/
theorem C2_init_never_fails (e : BatchEncoding) :
    BatchEncodingDataset.init e = Except.ok ⟨e⟩ ∧
    (BatchEncodingDataset.mk e).len = e.input_ids.length := by
  exact ⟨rfl, rfl⟩

/-- C8: `get(i)` and `length()` never mutate the wrapper or its underlying
encoding collection: in state-passing form both operations return the
wrapper unchanged, and their returned values agree with the pure reads. -/
theorem C8_no_mutation (d : BatchEncodingDataset) (idx : Nat) :
    (d.getitem_st idx).2 = d ∧
    (d.getitem_st idx).2.encodings = d.encodings ∧
    d.len_st.2 = d ∧
    (d.getitem_st idx).1 = d.getitem idx ∧
    d.len_st.1 = d.len := by
  exact ⟨rfl, rfl, rfl, rfl, rfl⟩

/-- C10: `length()` equals the length of `input_ids` alone, regardless of the
other two arrays; when `attention_mask` is shorter than `input_ids`, there is
an index strictly below `length()` at which `get` fails. -/
theorem C10_len_ignores_other_arrays (e : BatchEncoding)
    (h : e.attention_mask.length < e.input_ids.length) :
    (BatchEncodingDataset.mk e).len = e.input_ids.length ∧
    ∃ i, i < (BatchEncodingDataset.mk e).len ∧
      (BatchEncodingDataset.mk e).getitem i = none := by
  refine ⟨rfl, e.attention_mask.length, ?_, ?_⟩
  · simpa [BatchEncodingDataset.len] using h
  · have hmask : e.attention_mask[e.attention_mask.length]? = none := by
      simp
    simp only [BatchEncodingDataset.getitem, hmask]
    rcases hids : e.input_ids[e.attention_mask.length]? with _ | v <;> simp

/-- C10 witness: input ids of length 2, attention mask of length 1. -/
theorem C10_len_ignores_other_arrays_witness :
    (BatchEncodingDataset.mk ⟨[[1], [2]], [[1]], [[5], [6]]⟩).len = 2 ∧
    ∃ i, i < (BatchEncodingDataset.mk ⟨[[1], [2]], [[1]], [[5], [6]]⟩).len ∧
      (BatchEncodingDataset.mk ⟨[[1], [2]], [[1]], [[5], [6]]⟩).getitem i = none := by
  have h := C10_len_ignores_other_arrays ⟨[[1], [2]], [[1]], [[5], [6]]⟩
    (by decide)
  exact ⟨h.1, h.2⟩

/- Helper lemmas about `setup`, shared by the setup claims. -/

theorem setup_err_preprocess (env : SetupEnv) (msg : String)
    (h : env.preprocess = Except.error msg) :
    setup env = Except.error msg := by
  simp [setup, h]

theorem setup_err_tokenizer (env : SetupEnv) (te se : BatchEncoding)
    (msg : String) (h1 : env.preprocess = Except.ok (te, se))
    (h2 : env.get_tokenizer = Except.error msg) :
    setup env = Except.error msg := by
  simp [setup, h1, h2]

theorem setup_err_checkpoint (env : SetupEnv) (te se : BatchEncoding)
    (tok : T5Tokenizer) (msg : String)
    (h1 : env.preprocess = Except.ok (te, se))
    (h2 : env.get_tokenizer = Except.ok tok)
    (h3 : env.get_checkpoint = Except.error msg) :
    setup env = Except.error msg := by
  simp [setup, h1, h2, h3]

theorem setup_err_model (env : SetupEnv) (te se : BatchEncoding)
    (tok : T5Tokenizer) (cp msg : String)
    (h1 : env.preprocess = Except.ok (te, se))
    (h2 : env.get_tokenizer = Except.ok tok)
    (h3 : env.get_checkpoint = Except.ok cp)
    (h4 : env.from_pretrained cp = Except.error msg) :
    setup env = Except.error msg := by
  simp [setup, h1, h2, h3, h4]

theorem setup_ok_value (env : SetupEnv) (te se : BatchEncoding)
    (tok : T5Tokenizer) (cp : String) (model : T5ForConditionalGeneration)
    (h1 : env.preprocess = Except.ok (te, se))
    (h2 : env.get_tokenizer = Except.ok tok)
    (h3 : env.get_checkpoint = Except.ok cp)
    (h4 : env.from_pretrained cp = Except.ok model) :
    setup env = Except.ok (⟨te⟩, ⟨se⟩, tok, cp, ⟨tok, METRIC⟩,
      ⟨tok, cp, true, tok.pad_token_id⟩, model) := by
  simp [setup, h1, h2, h3, h4]

theorem setup_ok_inversion (env : SetupEnv) (r : SetupResult)
    (hr : setup env = Except.ok r) :
    ∃ te se tok cp model,
      env.preprocess = Except.ok (te, se) ∧
      env.get_tokenizer = Except.ok tok ∧
      env.get_checkpoint = Except.ok cp ∧
      env.from_pretrained cp = Except.ok model ∧
      r = (⟨te⟩, ⟨se⟩, tok, cp, ⟨tok, METRIC⟩,
        ⟨tok, cp, true, tok.pad_token_id⟩, model) := by
  rcases h1 : env.preprocess with msg | ⟨te, se⟩
  · rw [setup_err_preprocess env msg h1] at hr; cases hr
  rcases h2 : env.get_tokenizer with msg | tok
  · rw [setup_err_tokenizer env te se msg h1 h2] at hr; cases hr
  rcases h3 : env.get_checkpoint with msg | cp
  · rw [setup_err_checkpoint env te se tok msg h1 h2 h3] at hr; cases hr
  rcases h4 : env.from_pretrained cp with msg | model
  · rw [setup_err_model env te se tok cp msg h1 h2 h3 h4] at hr; cases hr
  rw [setup_ok_value env te se tok cp model h1 h2 h3 h4] at hr
  cases hr
  refine ⟨te, se, tok, cp, model, ?_, ?_, ?_, ?_, rfl⟩ <;>
    first
      | rfl
      | assumption

/-- C4: if any step of `setup` fails — preprocessing the data files,
fetching the tokenizer or checkpoint, or loading the model — the error
propagates out unchanged and no result tuple is produced; a successful
result implies every step succeeded. -/
theorem C4_setup_no_partial_result (env : SetupEnv) :
    (∀ msg, env.preprocess = Except.error msg →
      setup env = Except.error msg) ∧
    (∀ te se msg, env.preprocess = Except.ok (te, se) →
      env.get_tokenizer = Except.error msg →
      setup env = Except.error msg) ∧
    (∀ te se tok msg, env.preprocess = Except.ok (te, se) →
      env.get_tokenizer = Except.ok tok →
      env.get_checkpoint = Except.error msg →
      setup env = Except.error msg) ∧
    (∀ te se tok cp msg, env.preprocess = Except.ok (te, se) →
      env.get_tokenizer = Except.ok tok →
      env.get_checkpoint = Except.ok cp →
      env.from_pretrained cp = Except.error msg →
      setup env = Except.error msg) ∧
    (∀ r, setup env = Except.ok r →
      ∃ te se tok cp model,
        env.preprocess = Except.ok (te, se) ∧
        env.get_tokenizer = Except.ok tok ∧
        env.get_checkpoint = Except.ok cp ∧
        env.from_pretrained cp = Except.ok model) := by
  refine ⟨?_, ?_, ?_, ?_, ?_⟩
  · intro msg h; exact setup_err_preprocess env msg h
  · intro te se msg h1 h2; exact setup_err_tokenizer env te se msg h1 h2
  · intro te se tok msg h1 h2 h3
    exact setup_err_checkpoint env te se tok msg h1 h2 h3
  · intro te se tok cp msg h1 h2 h3 h4
    exact setup_err_model env te se tok cp msg h1 h2 h3 h4
  · intro r hr
    obtain ⟨te, se, tok, cp, model, h1, h2, h3, h4, -⟩ :=
      setup_ok_inversion env r hr
    exact ⟨te, se, tok, cp, model, h1, h2, h3, h4⟩

/-- C4 witness: in an environment whose data file is missing, `setup`
returns exactly that error and no tuple. -/
theorem C4_setup_no_partial_result_witness :
    setup envMissingFile = Except.error "train file not found" :=
  (C4_setup_no_partial_result envMissingFile).1 "train file not found" rfl

/-- C9: `setup`'s actual return tuple places the checkpoint string at
position 3 (0-based) and the evaluator at position 4 — the order
`train_torch` unpacks — while the declared return type annotates the
reverse order for those two positions; semantically, a successful `setup`
puts the preprocessor's checkpoint string in component 3 and an evaluator
built from the returned tokenizer and the global metric in component 4. -/
theorem C9_setup_return_order (env : SetupEnv) :
    setupReturnOrder[3]? = some ComponentTag.checkpoint ∧
    setupReturnOrder[4]? = some ComponentTag.evaluator ∧
    setupReturnOrder = trainTorchUnpackOrder ∧
    setupReturnOrder ≠ setupDeclaredOrder ∧
    setupDeclaredOrder[3]? = some ComponentTag.evaluator ∧
    setupDeclaredOrder[4]? = some ComponentTag.checkpoint ∧
    ∀ r cp, setup env = Except.ok r → env.get_checkpoint = Except.ok cp →
      r.2.2.2.1 = cp ∧ r.2.2.2.2.1 = Evaluate.mk r.2.2.1 METRIC := by
  refine ⟨by decide, by decide, by decide, by decide, by decide, by decide, ?_⟩
  intro r cp hr hcp
  obtain ⟨te, se, tok, cp', model, h1, h2, h3, h4, rfl⟩ :=
    setup_ok_inversion env r hr
  rw [h3] at hcp
  cases hcp
  exact ⟨rfl, rfl⟩

/-- C9 witness: a fully successful environment, showing component 3 is the
checkpoint string and component 4 the evaluator. -/
theorem C9_setup_return_order_witness :
    setupReturnOrder[3]? = some ComponentTag.checkpoint ∧
    envAllOkResult.2.2.2.1 = "t5-small" ∧
    envAllOkResult.2.2.2.2.1 = Evaluate.mk envAllOkResult.2.2.1 METRIC :=
  ⟨(C9_setup_return_order envAllOk).1,
    (C9_setup_return_order envAllOk).2.2.2.2.2.2
      envAllOkResult "t5-small" rfl rfl⟩

/- Helper lemmas about the epoch-loop trace, shared by the driver claims. -/

theorem runEpochs_countP_eq {α : Type} (render : α → String)
    (metricsOf : Nat → List (String × α)) (p : TrainEvent → Bool)
    (hp : ∀ e, (epochEvents render metricsOf e).countP p = 1) :
    ∀ n, (runEpochs render metricsOf n).countP p = n := by
  intro n
  induction n with
  | zero => rfl
  | succ n ih =>
    simp only [runEpochs, List.countP_append, ih, hp]

theorem epochEvents_countP_construct {α : Type} (render : α → String)
    (metricsOf : Nat → List (String × α)) (e : Nat) :
    (epochEvents render metricsOf e).countP TrainEvent.isConstruct = 1 := by
  simp [epochEvents, List.countP_cons, TrainEvent.isConstruct]

theorem epochEvents_countP_train {α : Type} (render : α → String)
    (metricsOf : Nat → List (String × α)) (e : Nat) :
    (epochEvents render metricsOf e).countP TrainEvent.isTrain = 1 := by
  simp [epochEvents, List.countP_cons, TrainEvent.isTrain]

theorem epochEvents_countP_eval {α : Type} (render : α → String)
    (metricsOf : Nat → List (String × α)) (e : Nat) :
    (epochEvents render metricsOf e).countP TrainEvent.isEval = 1 := by
  simp [epochEvents, List.countP_cons, TrainEvent.isEval]

theorem epochEvents_countP_advance {α : Type} (render : α → String)
    (metricsOf : Nat → List (String × α)) (e : Nat) :
    (epochEvents render metricsOf e).countP TrainEvent.isAdvance = 1 := by
  simp [epochEvents, List.countP_cons, TrainEvent.isAdvance]

theorem trace_countP_of_epoch_one {α : Type} (render : α → String)
    (metricsOf : Nat → List (String × α)) (n : Nat) (p : TrainEvent → Bool)
    (hp : ∀ e, (epochEvents render metricsOf e).countP p = 1)
    (hs : ∀ msg, p (.printSuccess msg) = false) :
    (train_torch_trace render metricsOf n).countP p = n := by
  simp only [train_torch_trace, List.countP_append,
    runEpochs_countP_eq render metricsOf p hp n]
  simp [List.countP_cons, hs]

theorem runEpochs_filter_not_render {α β : Type} (render : α → String)
    (metricsOf : Nat → List (String × α)) (render' : β → String)
    (metricsOf' : Nat → List (String × β)) :
    ∀ n, (runEpochs render metricsOf n).filter (fun ev => !ev.isRender) =
      (runEpochs render' metricsOf' n).filter (fun ev => !ev.isRender) := by
  intro n
  induction n with
  | zero => rfl
  | succ n ih =>
    simp only [runEpochs, List.filter_append, ih]
    simp [epochEvents, TrainEvent.isRender]

theorem epochEvents_sublist_runEpochs {α : Type} (render : α → String)
    (metricsOf : Nat → List (String × α)) :
    ∀ {e n : Nat}, e < n →
      List.Sublist (epochEvents render metricsOf e)
        (runEpochs render metricsOf n) := by
  intro e n
  induction n with
  | zero => intro h; exact absurd h (Nat.not_lt_zero e)
  | succ n ih =>
    intro h
    rcases Nat.lt_succ_iff_lt_or_eq.mp h with h' | rfl
    · exact (ih h').trans (List.sublist_append_left _ _)
    · exact List.sublist_append_right _ _

theorem train_advance_eval_sublist_epoch {α : Type} (render : α → String)
    (metricsOf : Nat → List (String × α)) (e : Nat) :
    List.Sublist [TrainEvent.trainPass e, .advanceProgress e 1, .evalPass e]
      (epochEvents render metricsOf e) :=
  List.Sublist.cons _ (List.Sublist.cons₂ _ (List.Sublist.cons₂ _
    (List.Sublist.cons₂ _ (List.nil_sublist _))))

/-- C3: for every configured epoch count n and every behaviour of the
trainer's evaluation metrics, the loop performs exactly n trainer
constructions, n training passes and n evaluation passes, and the sequence
of non-rendering events is completely independent of the metric values —
there is no early stopping. -/
theorem C3_exact_epoch_count {α β : Type} (render : α → String)
    (metricsOf : Nat → List (String × α)) (n : Nat) :
    (train_torch_trace render metricsOf n).countP TrainEvent.isConstruct = n ∧
    (train_torch_trace render metricsOf n).countP TrainEvent.isTrain = n ∧
    (train_torch_trace render metricsOf n).countP TrainEvent.isEval = n ∧
    (∀ (render' : β → String) (metricsOf' : Nat → List (String × β)),
      (train_torch_trace render metricsOf n).filter (fun ev => !ev.isRender) =
        (train_torch_trace render' metricsOf' n).filter
          (fun ev => !ev.isRender)) ∧
    ∀ e (he : e < n),
      List.Sublist (epochEvents render metricsOf e)
        (train_torch_trace render metricsOf n) := by
  refine ⟨?_, ?_, ?_, ?_, ?_⟩
  · exact trace_countP_of_epoch_one render metricsOf n _
      (epochEvents_countP_construct render metricsOf) (fun _ => rfl)
  · exact trace_countP_of_epoch_one render metricsOf n _
      (epochEvents_countP_train render metricsOf) (fun _ => rfl)
  · exact trace_countP_of_epoch_one render metricsOf n _
      (epochEvents_countP_eval render metricsOf) (fun _ => rfl)
  · intro render' metricsOf'
    simp only [train_torch_trace, List.filter_append,
      runEpochs_filter_not_render render metricsOf render' metricsOf' n]
  · intro e he
    exact (epochEvents_sublist_runEpochs render metricsOf he).trans
      (List.sublist_append_left _ _)

/-- C3 witness: two epochs, a concrete metrics mapping; the second epoch's
full event block appears in order in the trace. -/
theorem C3_exact_epoch_count_witness :
    ((train_torch_trace id (fun _ => [("loss", "0.5")]) 2).countP
        TrainEvent.isConstruct = 2) ∧
    ((train_torch_trace id (fun _ => [("loss", "0.5")]) 2).countP
        TrainEvent.isTrain = 2) ∧
    ((train_torch_trace id (fun _ => [("loss", "0.5")]) 2).countP
        TrainEvent.isEval = 2) ∧
    List.Sublist (epochEvents id (fun _ => [("loss", "0.5")]) 1)
      (train_torch_trace id (fun _ => [("loss", "0.5")]) 2) :=
  ⟨(C3_exact_epoch_count (β := String) id (fun _ => [("loss", "0.5")]) 2).1,
   (C3_exact_epoch_count (β := String) id (fun _ => [("loss", "0.5")]) 2).2.1,
   (C3_exact_epoch_count (β := String) id (fun _ => [("loss", "0.5")]) 2).2.2.1,
   (C3_exact_epoch_count (β := String) id (fun _ => [("loss", "0.5")]) 2).2.2.2.2
     1 (by decide)⟩

/-- C7 counterexample: with one configured epoch and a trainer whose
evaluation returns the single metric ("score", "1"), the loop's unique
progress advance is the event at index 2 of the trace, strictly before that
epoch's evaluation pass (index 3) and metrics rendering (index 4): the
advance does not wait for the epoch's work to complete. -/
theorem C7_counterexample_advance_before_eval :
    ((train_torch_trace id (fun _ => [("score", "1")]) 1).countP
        TrainEvent.isAdvance = 1) ∧
    (train_torch_trace id (fun _ => [("score", "1")]) 1)[2]? =
      some (.advanceProgress 0 1) ∧
    (train_torch_trace id (fun _ => [("score", "1")]) 1)[3]? =
      some (.evalPass 0) ∧
    (train_torch_trace id (fun _ => [("score", "1")]) 1)[4]? =
      some (.renderMetricsTable 0 [("score", "1")]) := by
  exact ⟨rfl, rfl, rfl, rfl⟩

/-- C7 amended: the progress counter is advanced exactly once per epoch (by
1, totalling n), the advance occurring after that epoch's training pass but
before its evaluation pass; after the loop the success message is the last
event, and the driver yields no value beyond this trace. -/
theorem C7_progress_advance {α : Type} (render : α → String)
    (metricsOf : Nat → List (String × α)) (n : Nat) :
    (train_torch_trace render metricsOf n).countP TrainEvent.isAdvance = n ∧
    (train_torch_trace render metricsOf n).getLast? =
      some (.printSuccess "[green]Training complete![/green]") ∧
    ∀ e (he : e < n),
      List.Sublist [TrainEvent.trainPass e, .advanceProgress e 1, .evalPass e]
        (train_torch_trace render metricsOf n) := by
  refine ⟨?_, ?_, ?_⟩
  · exact trace_countP_of_epoch_one render metricsOf n _
      (epochEvents_countP_advance render metricsOf) (fun _ => rfl)
  · simp [train_torch_trace]
  · intro e he
    exact ((train_advance_eval_sublist_epoch render metricsOf e).trans
      (epochEvents_sublist_runEpochs render metricsOf he)).trans
      (List.sublist_append_left _ _)

/-- C7 witness: one epoch, a concrete metrics mapping. -/
theorem C7_progress_advance_witness :
    ((train_torch_trace id (fun _ => [("bleu", "2")]) 1).countP
        TrainEvent.isAdvance = 1) ∧
    (train_torch_trace id (fun _ => [("bleu", "2")]) 1).getLast? =
      some (.printSuccess "[green]Training complete![/green]") ∧
    List.Sublist [TrainEvent.trainPass 0, .advanceProgress 0 1, .evalPass 0]
      (train_torch_trace id (fun _ => [("bleu", "2")]) 1) :=
  ⟨(C7_progress_advance id (fun _ => [("bleu", "2")]) 1).1,
   (C7_progress_advance id (fun _ => [("bleu", "2")]) 1).2.1,
   (C7_progress_advance id (fun _ => [("bleu", "2")]) 1).2.2 0 (by decide)⟩

/-- C5: in every epoch e of the loop, the metrics table rendered for e has
exactly one row per entry of the metrics mapping returned by the trainer's
evaluation: the rows are the mapping's entries with values rendered to
strings, and — the mapping's names being distinct, as Python dict keys are —
every metric name appears exactly once among the rows. -/
theorem C5_metrics_table_rows {α : Type} (render : α → String)
    (metricsOf : Nat → List (String × α)) (n e : Nat) (he : e < n)
    (hnodup : ((metricsOf e).map Prod.fst).Nodup) :
    TrainEvent.renderMetricsTable e (metricsRows render (metricsOf e)) ∈
      train_torch_trace render metricsOf n ∧
    (metricsRows render (metricsOf e)).length = (metricsOf e).length ∧
    ∀ p ∈ metricsOf e,
      (p.1, render p.2) ∈ metricsRows render (metricsOf e) ∧
      ((metricsRows render (metricsOf e)).map Prod.fst).count p.1 = 1 := by
  refine ⟨?_, ?_, ?_⟩
  · have hmem : TrainEvent.renderMetricsTable e
        (metricsRows render (metricsOf e)) ∈ epochEvents render metricsOf e := by
      simp [epochEvents]
    exact List.mem_append_left _
      ((epochEvents_sublist_runEpochs render metricsOf he).subset hmem)
  · simp [metricsRows]
  · intro p hp
    constructor
    · simp only [metricsRows]
      exact List.mem_map_of_mem _ hp
    · have hmapfst : (metricsRows render (metricsOf e)).map Prod.fst =
          (metricsOf e).map Prod.fst := by
        simp [metricsRows, List.map_map, Function.comp_def]
      rw [hmapfst]
      exact List.count_eq_one_of_mem hnodup (List.mem_map_of_mem _ hp)

/-- C5 witness: one epoch, a two-entry metrics mapping with distinct names,
checked on the entry ("sacrebleu", "27.3"). -/
theorem C5_metrics_table_rows_witness :
    (TrainEvent.renderMetricsTable 0
        (metricsRows id [("sacrebleu", "27.3"), ("gen_len", "12.0")]) ∈
      train_torch_trace id
        (fun _ => [("sacrebleu", "27.3"), ("gen_len", "12.0")]) 1) ∧
    (metricsRows id [("sacrebleu", "27.3"), ("gen_len", "12.0")]).length = 2 ∧
    ("sacrebleu", "27.3") ∈
      metricsRows id [("sacrebleu", "27.3"), ("gen_len", "12.0")] ∧
    ((metricsRows id [("sacrebleu", "27.3"), ("gen_len", "12.0")]).map
        Prod.fst).count "sacrebleu" = 1 := by
  have h := C5_metrics_table_rows id
    (fun _ => [("sacrebleu", "27.3"), ("gen_len", "12.0")]) 1 0
    (by decide) (by decide)
  have hp := h.2.2 ("sacrebleu", "27.3") (by decide)
  exact ⟨h.1, h.2.1, hp.1, hp.2⟩

/-- C6: the `__main__` entry point invokes `train_torch` with the hardcoded
paths whose filenames are `t5_train.json` and `t5_test.json`, source
language "en" and target language "fr", and parses no command-line flags:
the invocation is the same for every command line. -/
theorem C6_main_invocation (argv argv' : List String) :
    mainEntry argv = mainArgs ∧
    fileName (mainEntry argv).train_path = "t5_train.json" ∧
    fileName (mainEntry argv).test_path = "t5_test.json" ∧
    (mainEntry argv).source_lang = "en" ∧
    (mainEntry argv).target_lang = "fr" ∧
    mainEntry argv = mainEntry argv' := by
  refine ⟨rfl, ?_, ?_, rfl, rfl, rfl⟩
  · show fileName mainArgs.train_path = "t5_train.json"
    decide
  · show fileName mainArgs.test_path = "t5_test.json"
    decide

end Dugong
